/-
Verification of the Detection Fusion & Summary stage
(backend/app/services/fusion_service.py) against its specification.

The fusion service is pure data transformation: it filters and ranks
detections by confidence, merges OCR text fields into detections,
formats a per-detection display label, and builds a natural-language
summary string.  We embed it shallowly: Python floats become rationals,
optional strings become `Option String`, and Python's stable `sorted`
becomes `List.mergeSort` (any two stable sorts with respect to the same
total preorder produce the same list, so this is a faithful embedding of
CPython's stable Timsort).
-/
import Mathlib

namespace VisionAid

/-- A single product detection result (schemas.Detection).
`bbox` is the box `[x1, y1, x2, y2]`; the four trailing fields are the
optional OCR-derived text fields. -/
structure Detection where
  id : String
  bbox : List ℚ
  class_name : String
  confidence : ℚ
  brand : Option String
  product_name : Option String
  quantity_text : Option String
  raw_text : Option String
deriving DecidableEq, Repr

/-- OCR result record consumed by `merge_ocr_with_detection`: in the
source it is a dict queried with `.get`, which yields `None` for a
missing key, so each field is present-or-absent. -/
structure OcrResult where
  brand : Option String
  product_name : Option String
  quantity_text : Option String
  raw_text : Option String
deriving DecidableEq, Repr

/-- Python truthiness of an optional string: `None` and `""` are falsy
(`if detection.brand:` in the source tests truthiness, not presence). -/
def truthy : Option String → Bool
  | none => false
  | some s => !s.isEmpty

/-- Python's `str.replace('_', ' ')` for the single-character pattern
used by the source. -/
def underscoresToSpaces (s : String) : String :=
  String.mk (s.toList.map (fun c => if c = '_' then ' ' else c))

/-- One step of Python's `str.title()`: a letter is uppercased when the
previous character is not a letter, lowercased otherwise; non-letters
pass through and reset the word boundary. -/
def pyTitleAux : Bool → List Char → List Char
  | _, [] => []
  | prevAlpha, c :: cs =>
    if c.isAlpha then
      (if prevAlpha then c.toLower else c.toUpper) :: pyTitleAux true cs
    else
      c :: pyTitleAux false cs

/-- Python's `str.title()` (ASCII letters). -/
def pyTitle (s : String) : String :=
  String.mk (pyTitleAux false s.toList)

/-- Python's `int()` applied to a number: truncation toward zero. -/
def pyInt (q : ℚ) : ℤ :=
  if 0 ≤ q then ⌊q⌋ else ⌈q⌉

/-- Embedding of `clean_detections`: keep detections with
`confidence >= min_confidence`, then sort by confidence descending with
a stable sort (Python's `sorted(..., key=lambda x: x.confidence,
reverse=True)`). -/
def clean_detections (detections : List Detection)
    (min_confidence : ℚ) : List Detection :=
  let filtered := detections.filter (fun d => min_confidence ≤ d.confidence)
  filtered.mergeSort (fun a b => b.confidence ≤ a.confidence)

/-- The `parts` list built for one detection inside `build_summary`
(lines 54-67 of the source): `brand` if truthy; then `product_name` if
truthy, else the title-cased, underscore-to-space `class_name` if that
is truthy; then `quantity_text` if truthy. -/
def description_parts (d : Detection) : List String :=
  (match d.brand with
   | some b => if b.isEmpty then [] else [b]
   | none => []) ++
  (match d.product_name with
   | some p =>
     if p.isEmpty then
       (if d.class_name.isEmpty then []
        else [pyTitle (underscoresToSpaces d.class_name)])
     else [p]
   | none =>
     if d.class_name.isEmpty then []
     else [pyTitle (underscoresToSpaces d.class_name)]) ++
  (match d.quantity_text with
   | some q => if q.isEmpty then [] else [q]
   | none => [])

/-- The `item_desc` value in `build_summary`:
`" ".join(parts) if parts else "Unknown product"`. -/
def item_desc (d : Detection) : String :=
  if description_parts d = [] then "Unknown product"
  else String.intercalate " " (description_parts d)

/-- The percentage `confidence_pct = int(detection.confidence * 100)`. -/
def confidence_pct (d : Detection) : ℤ :=
  pyInt (d.confidence * 100)

/-- The sentence appended for the detection at 1-based position `i`:
`f"Item {i}: {item_desc}. Confidence {confidence_pct} percent."`. -/
def item_sentence (i : ℕ) (d : Detection) : String :=
  "Item " ++ toString i ++ ": " ++ item_desc d ++ ". Confidence " ++
    toString (confidence_pct d) ++ " percent."

/-- The loop `for i, detection in enumerate(detections, 1)` of
`build_summary`, producing one sentence per detection. -/
def item_sentences : ℕ → List Detection → List String
  | _, [] => []
  | i, d :: ds => item_sentence i d :: item_sentences (i + 1) ds

/-- Embedding of `build_summary`: `"No products detected."` on the empty list,
otherwise the header `f"Detected {count} item{plural}."` followed by one
sentence per detection, all joined with `" ".join`. -/
def build_summary (detections : List Detection) : String :=
  if detections.isEmpty then "No products detected."
  else
    let count := detections.length
    let header :=
      "Detected " ++ toString count ++ " item" ++
        (if count > 1 then "s" else "") ++ "."
    String.intercalate " " (header :: item_sentences 1 detections)

/-- The `parts` list built by `format_detection_label` (lines 89-100):
same selection as `description_parts` except `quantity_text` is wrapped
in parentheses. -/
def label_parts (d : Detection) : List String :=
  (match d.brand with
   | some b => if b.isEmpty then [] else [b]
   | none => []) ++
  (match d.product_name with
   | some p =>
     if p.isEmpty then
       (if d.class_name.isEmpty then []
        else [pyTitle (underscoresToSpaces d.class_name)])
     else [p]
   | none =>
     if d.class_name.isEmpty then []
     else [pyTitle (underscoresToSpaces d.class_name)]) ++
  (match d.quantity_text with
   | some q => if q.isEmpty then [] else ["(" ++ q ++ ")"]
   | none => [])

/-- Embedding of `format_detection_label`:
`" ".join(parts) if parts else "Unknown Product"`. -/
def format_detection_label (d : Detection) : String :=
  if label_parts d = [] then "Unknown Product"
  else String.intercalate " " (label_parts d)

/-- Embedding of `merge_ocr_with_detection`: a new Detection carrying the original
identity fields and the OCR result's four text fields. -/
def merge_ocr_with_detection (d : Detection) (ocr : OcrResult) : Detection :=
  { id := d.id
    bbox := d.bbox
    class_name := d.class_name
    confidence := d.confidence
    brand := ocr.brand
    product_name := ocr.product_name
    quantity_text := ocr.quantity_text
    raw_text := ocr.raw_text }

/-- Spec-side rendering of the per-item description, phrased after the
specification's wording: concatenate, space-separated and in this order,
only the present (truthy) parts — `brand`; then `product_name` if
present, else the title-cased, underscore-to-space `class_name`; then
`quantity_text`; `"Unknown product"` when no part is present.  Used to
compare `item_desc` (translated from the source) with the spec. -/
def spec_description (d : Detection) : String :=
  let fallback : List String :=
    if d.class_name.isEmpty then []
    else [pyTitle (underscoresToSpaces d.class_name)]
  let parts : List String :=
    (if truthy d.brand then [d.brand.getD ""] else []) ++
    (if truthy d.product_name then [d.product_name.getD ""] else fallback) ++
    (if truthy d.quantity_text then [d.quantity_text.getD ""] else [])
  if parts = [] then "Unknown product" else String.intercalate " " parts

/-- The concrete single-detection example fixed by the specification. -/
def milkExample : Detection :=
  { id := "demo", bbox := [0, 0, 1, 1], class_name := "milk_pack",
    confidence := 0.92, brand := some "Amul",
    product_name := some "Full Cream Milk",
    quantity_text := some "500ml", raw_text := none }

/-- A detection whose confidence 0.929 separates truncation (92) from
rounding (93) of `confidence * 100`. -/
def truncExample : Detection :=
  { id := "t", bbox := [], class_name := "milk_pack", confidence := 0.929,
    brand := none, product_name := none, quantity_text := none,
    raw_text := none }

/-- Two detections used to exercise the plural header of
`build_summary`. -/
def pairExampleA : Detection :=
  { id := "a", bbox := [], class_name := "soap_bar", confidence := 9/10,
    brand := none, product_name := none, quantity_text := none,
    raw_text := none }

/-- Second element of the plural-header example. -/
def pairExampleB : Detection :=
  { id := "b", bbox := [], class_name := "soap_bar", confidence := 1/2,
    brand := none, product_name := none, quantity_text := none,
    raw_text := none }

/-! ## Theorems -/

/-- The list `item_sentences n L` has one sentence per detection. -/
lemma item_sentences_length (n : ℕ) (L : List Detection) :
    (item_sentences n L).length = L.length := by
  induction L generalizing n with
  | nil => rfl
  | cons d ds ih => simp [item_sentences, ih]

/-- The sentence at position `i` of `item_sentences n L` is the sentence
for `L[i]` numbered `n + i`. -/
lemma item_sentences_getElem (n i : ℕ) (L : List Detection) :
    (item_sentences n L)[i]? =
      L[i]?.map (fun d => item_sentence (n + i) d) := by
  induction L generalizing n i with
  | nil => simp [item_sentences]
  | cons d ds ih =>
    cases i with
    | zero => simp [item_sentences]
    | succ j =>
      have h : n + 1 + j = n + (j + 1) := by omega
      simp only [item_sentences, List.getElem?_cons_succ]
      rw [ih (n + 1) j, h]

/-- C5: `build_summary` applied to the empty list of detections returns
exactly the string `"No products detected."`. -/
theorem build_summary_empty : build_summary [] = "No products detected." :=
  rfl

/-- C2: `merge_ocr_with_detection d ocr` preserves `d`'s `id`, `bbox`,
`class_name` and `confidence` exactly, and replaces all four text fields
wholesale with `ocr`'s corresponding fields — so a field set in `d` but
absent in `ocr` becomes absent in the result.  (`d` itself is unchanged:
the embedding is a pure function returning a new record.) -/
theorem merge_preserves_identity (d : Detection) (ocr : OcrResult) :
    (merge_ocr_with_detection d ocr).id = d.id ∧
    (merge_ocr_with_detection d ocr).bbox = d.bbox ∧
    (merge_ocr_with_detection d ocr).class_name = d.class_name ∧
    (merge_ocr_with_detection d ocr).confidence = d.confidence ∧
    (merge_ocr_with_detection d ocr).brand = ocr.brand ∧
    (merge_ocr_with_detection d ocr).product_name = ocr.product_name ∧
    (merge_ocr_with_detection d ocr).quantity_text = ocr.quantity_text ∧
    (merge_ocr_with_detection d ocr).raw_text = ocr.raw_text ∧
    (∀ s : String,
      (merge_ocr_with_detection { d with brand := some s }
        { ocr with brand := none }).brand = none) :=
  ⟨rfl, rfl, rfl, rfl, rfl, rfl, rfl, rfl, fun _ => rfl⟩

/-- C9: `build_summary` is deterministic — two runs on identical input
lists produce byte-identical output strings.  The embedding is a pure
function of the input list (the source's only side effect is a debug log
that does not influence the return value). -/
theorem build_summary_deterministic (L L' : List Detection) (h : L = L') :
    build_summary L = build_summary L' :=
  congrArg build_summary h

/-- Witness for C9 at a concrete input. -/
theorem build_summary_deterministic_witness :
    build_summary [] = build_summary [] :=
  build_summary_deterministic [] [] rfl

/-- C8: every Fusion Engine operation is a total function over its input
domain — any present/absent combination of the optional text fields, any
confidence value, any strings — and a detection with an empty
`class_name` and no truthy text fields degrades to the
`"Unknown product"` / `"Unknown Product"` branch (for any confidence,
including values outside `[0,1]`), rather than erroring. -/
theorem fusion_engine_total :
    (∀ (d : Detection) (ocr : OcrResult),
      ∃ r, merge_ocr_with_detection d ocr = r) ∧
    (∀ (L : List Detection) (t : ℚ), ∃ r, clean_detections L t = r) ∧
    (∀ L : List Detection, ∃ s, build_summary L = s) ∧
    (∀ d : Detection, ∃ s, format_detection_label d = s) ∧
    (∀ (i : String) (bb : List ℚ) (c : ℚ) (rt : Option String),
      item_desc ⟨i, bb, "", c, none, none, none, rt⟩ = "Unknown product" ∧
      format_detection_label ⟨i, bb, "", c, none, none, none, rt⟩ =
        "Unknown Product") :=
  ⟨fun _ _ => ⟨_, rfl⟩, fun _ _ => ⟨_, rfl⟩, fun _ => ⟨_, rfl⟩,
   fun _ => ⟨_, rfl⟩, fun _ _ _ _ => ⟨rfl, rfl⟩⟩

/-- The `parts` list of `build_summary` agrees with the spec's
part-selection rule written with `truthy`. -/
lemma description_parts_eq (d : Detection) :
    description_parts d =
      (if truthy d.brand then [d.brand.getD ""] else []) ++
      ((if truthy d.product_name then [d.product_name.getD ""]
        else if d.class_name.isEmpty then []
        else [pyTitle (underscoresToSpaces d.class_name)])) ++
      (if truthy d.quantity_text then [d.quantity_text.getD ""] else []) := by
  obtain ⟨i, bb, cn, c, b, p, q, r⟩ := d
  cases b <;> cases p <;> cases q <;>
    simp only [description_parts, truthy, Option.getD, Bool.not_eq_true'] <;>
    split_ifs <;> simp_all

/-- C3: each detection's summary description is built by concatenating,
space-separated and in order, only the present parts (brand; then
product_name, else title-cased underscore-to-space class_name; then
quantity_text), defaulting to `"Unknown product"`; and the spec's
concrete single-item example produces exactly the spec's string. -/
theorem summary_description_correct :
    (∀ d : Detection, item_desc d = spec_description d) ∧
    build_summary [milkExample] =
      "Detected 1 item. Item 1: Amul Full Cream Milk 500ml. Confidence 92 percent." := by
  constructor
  · intro d
    simp only [item_desc, spec_description, description_parts_eq]
  · have hc : confidence_pct milkExample = 92 := by
      unfold confidence_pct pyInt
      rw [show milkExample.confidence * 100 = (92 : ℚ) by
            norm_num [milkExample],
          if_pos (by norm_num)]
      norm_num
    simp only [build_summary, item_sentences, item_sentence, hc]
    rfl

/-- C4: the percentage in each summary sentence is the integer
truncation of `confidence * 100` toward the lower bound
(`int(confidence * 100)`), not rounding to the nearest integer: a
confidence of 0.929 yields 92, while rounding would give 93. -/
theorem confidence_pct_truncates :
    (∀ d : Detection, 0 ≤ d.confidence →
      confidence_pct d = ⌊d.confidence * 100⌋) ∧
    confidence_pct truncExample = 92 ∧
    round (truncExample.confidence * 100) = (93 : ℤ) ∧
    item_sentence 1 truncExample =
      "Item 1: Milk Pack. Confidence 92 percent." := by
  have hm : truncExample.confidence * 100 = (929 : ℚ) / 10 := by
    norm_num [truncExample]
  have hpct : confidence_pct truncExample = 92 := by
    unfold confidence_pct pyInt
    rw [hm, if_pos (by norm_num)]
    norm_num
  refine ⟨?_, hpct, ?_, ?_⟩
  · intro d h
    unfold confidence_pct pyInt
    rw [if_pos (by positivity)]
  · rw [hm, round_eq]
    norm_num
  · simp only [item_sentence, hpct]
    rfl

/-- Witness for C4 at the concrete 0.929-confidence detection. -/
theorem confidence_pct_truncates_witness :
    0 ≤ truncExample.confidence ∧
    confidence_pct truncExample = ⌊truncExample.confidence * 100⌋ :=
  ⟨by norm_num [truncExample],
   confidence_pct_truncates.1 truncExample (by norm_num [truncExample])⟩

/-- C6: on a non-empty list of `N` detections, `build_summary` returns
the header `"Detected {N} item(s)."` (the `s` appended iff `N > 1`)
followed by one sentence per detection in input order with 1-based
numbering, all joined by single spaces. -/
theorem build_summary_structure (dets : List Detection) (h : dets ≠ []) :
    build_summary dets =
      String.intercalate " "
        (("Detected " ++ toString dets.length ++ " item" ++
          (if 1 < dets.length then "s" else "") ++ ".") ::
          item_sentences 1 dets) ∧
    (item_sentences 1 dets).length = dets.length ∧
    ∀ i : ℕ, (item_sentences 1 dets)[i]? =
      dets[i]?.map (fun d => item_sentence (1 + i) d) := by
  refine ⟨?_, item_sentences_length 1 dets,
    fun i => item_sentences_getElem 1 i dets⟩
  match dets with
  | [] => exact absurd rfl h
  | d :: ds => rfl

/-- Witness for C6 on a concrete two-element list (plural header). -/
theorem build_summary_structure_witness :
    build_summary [pairExampleA, pairExampleB] =
      String.intercalate " "
        (("Detected " ++ toString ([pairExampleA, pairExampleB].length) ++
          " item" ++
          (if 1 < [pairExampleA, pairExampleB].length then "s" else "") ++
          ".") :: item_sentences 1 [pairExampleA, pairExampleB]) :=
  (build_summary_structure [pairExampleA, pairExampleB] (by simp)).1

/-- C7: `format_detection_label` selects the same parts as the summary
description (a common `core`: brand, then product_name or the
title-cased underscore-to-space class_name), except `quantity_text`,
when present, is wrapped in parentheses; with no part the result is
exactly `"Unknown Product"` (capital P, unlike the summary's
`"Unknown product"`). -/
theorem format_label_matches_description (d : Detection) :
    (∃ core : List String,
      description_parts d =
        core ++ (match d.quantity_text with
                 | some q => if q.isEmpty then [] else [q]
                 | none => []) ∧
      label_parts d =
        core ++ (match d.quantity_text with
                 | some q => if q.isEmpty then [] else ["(" ++ q ++ ")"]
                 | none => [])) ∧
    (label_parts d = [] → format_detection_label d = "Unknown Product") ∧
    ("Unknown Product" : String) ≠ "Unknown product" := by
  refine ⟨⟨(match d.brand with
            | some b => if b.isEmpty then [] else [b]
            | none => []) ++
           (match d.product_name with
            | some p =>
              if p.isEmpty then
                (if d.class_name.isEmpty then []
                 else [pyTitle (underscoresToSpaces d.class_name)])
              else [p]
            | none =>
              if d.class_name.isEmpty then []
              else [pyTitle (underscoresToSpaces d.class_name)]),
          ?_, ?_⟩, ?_, ?_⟩
  · simp [description_parts, List.append_assoc]
  · simp [label_parts, List.append_assoc]
  · intro h
    simp [format_detection_label, h]
  · decide

/-- Witness for C7: a detection with no parts gets the capital-P
default label. -/
theorem format_label_matches_description_witness :
    format_detection_label
      (Detection.mk "w" [] "" 0 none none none none) = "Unknown Product" :=
  (format_label_matches_description
    (Detection.mk "w" [] "" 0 none none none none)).2.1 rfl

/-- C10: a text field holding the empty string behaves exactly like an
absent field in both `build_summary`'s description and
`format_detection_label` (part selection tests truthiness, not
presence); with empty `class_name` and no truthy text fields the
results are `"Unknown product"` and `"Unknown Product"`. -/
theorem empty_string_like_absent (d : Detection) :
    (item_desc { d with brand := some "" } =
       item_desc { d with brand := none } ∧
     item_desc { d with product_name := some "" } =
       item_desc { d with product_name := none } ∧
     item_desc { d with quantity_text := some "" } =
       item_desc { d with quantity_text := none }) ∧
    (format_detection_label { d with brand := some "" } =
       format_detection_label { d with brand := none } ∧
     format_detection_label { d with product_name := some "" } =
       format_detection_label { d with product_name := none } ∧
     format_detection_label { d with quantity_text := some "" } =
       format_detection_label { d with quantity_text := none }) ∧
    (d.class_name = "" → truthy d.brand = false →
     truthy d.product_name = false → truthy d.quantity_text = false →
     item_desc d = "Unknown product" ∧
     format_detection_label d = "Unknown Product") := by
  obtain ⟨i, bb, cn, c, b, p, q, r⟩ := d
  refine ⟨⟨rfl, rfl, rfl⟩, ⟨rfl, rfl, rfl⟩, ?_⟩
  intro hcn hb hp hq
  subst hcn
  cases b <;> cases p <;> cases q <;>
    simp_all [truthy, item_desc, format_detection_label,
      description_parts, label_parts, String.isEmpty_iff]

/-- Witness for C10: all-empty-string fields yield the two default
strings. -/
theorem empty_string_like_absent_witness :
    item_desc
      (Detection.mk "w" [] "" (1/2) (some "") (some "") (some "") none) =
      "Unknown product" ∧
    format_detection_label
      (Detection.mk "w" [] "" (1/2) (some "") (some "") (some "") none) =
      "Unknown Product" :=
  (empty_string_like_absent
    (Detection.mk "w" [] "" (1/2) (some "") (some "") (some "") none)).2.2
    rfl rfl rfl rfl

/-- C1: `clean_detections L t` returns exactly the elements of `L` with
`confidence >= t` (as a multiset: a permutation of the filtered list),
ordered by confidence descending, and the reordering is stable: for
every confidence value `c`, the sublist of elements with confidence `c`
equals, in order, the filtered elements of `L` with confidence `c`.
(The input list is not mutated: the embedding is a pure function.) -/
theorem clean_detections_correct (L : List Detection) (t : ℚ) :
    List.Perm (clean_detections L t)
      (L.filter (fun d => t ≤ d.confidence)) ∧
    (clean_detections L t).Pairwise
      (fun a b => b.confidence ≤ a.confidence) ∧
    (∀ c : ℚ, (clean_detections L t).filter (fun d => d.confidence = c) =
      L.filter (fun d => t ≤ d.confidence ∧ d.confidence = c)) := by
  have trans : ∀ a b c : Detection,
      (decide (b.confidence ≤ a.confidence)) = true →
      (decide (c.confidence ≤ b.confidence)) = true →
      (decide (c.confidence ≤ a.confidence)) = true := by
    intro a b c h1 h2
    simp only [decide_eq_true_eq] at h1 h2 ⊢
    exact le_trans h2 h1
  have total : ∀ a b : Detection,
      ((decide (b.confidence ≤ a.confidence)) ||
        (decide (a.confidence ≤ b.confidence))) = true := by
    intro a b
    simp only [Bool.or_eq_true, decide_eq_true_eq]
    exact le_total _ _
  simp only [clean_detections]
  refine ⟨List.mergeSort_perm _ _, ?_, ?_⟩
  · exact (List.sorted_mergeSort trans total
      (L.filter (fun d => t ≤ d.confidence))).imp
        (fun h => of_decide_eq_true h)
  · intro c
    set F := L.filter (fun d => t ≤ d.confidence) with hF
    set pc : Detection → Bool := fun d => decide (d.confidence = c) with hpc
    have hmem : ∀ x ∈ F.filter pc, x.confidence = c := by
      intro x hx
      have := List.of_mem_filter hx
      rwa [hpc, decide_eq_true_eq] at this
    have hpair : (F.filter pc).Pairwise
        (fun a b => (decide (b.confidence ≤ a.confidence)) = true) := by
      apply List.pairwise_of_forall_mem_list
      intro a ha b hb
      rw [decide_eq_true_eq, hmem a ha, hmem b hb]
    have hsub : (F.filter pc).Sublist
        (List.mergeSort F (fun a b => decide (b.confidence ≤ a.confidence))) :=
      List.sublist_mergeSort trans total hpair (List.filter_sublist F)
    have hsub2 : (F.filter pc).Sublist
        ((List.mergeSort F
          (fun a b => decide (b.confidence ≤ a.confidence))).filter pc) := by
      have h2 := hsub.filter pc
      have hid : (F.filter pc).filter pc = F.filter pc := by
        apply List.filter_eq_self.mpr
        intro a ha
        exact List.of_mem_filter ha
      rwa [hid] at h2
    have hperm : ((List.mergeSort F
        (fun a b => decide (b.confidence ≤ a.confidence))).filter pc).Perm
        (F.filter pc) :=
      (List.mergeSort_perm F _).filter pc
    have hmain : (List.mergeSort F
        (fun a b => decide (b.confidence ≤ a.confidence))).filter pc =
        F.filter pc :=
      (hsub2.eq_of_length hperm.length_eq.symm).symm
    rw [hmain, hF, List.filter_filter]
    apply List.filter_congr
    intro x _
    by_cases h1 : t ≤ x.confidence <;> by_cases h2 : x.confidence = c <;>
      simp [h1, h2, hpc]

end VisionAid
